import Mathlib

/-!
Verification of the diffusion stepping engine in `src/processVolume.ts`.

The WGSL compute shader `diffusionShader` (per-lane update `main`), the
dispatch performed by `DiffusionSim.process`, the readback protocol of
`DiffusionSim.readResults`, and the construction path `DiffusionSim.create`
are shallowly embedded below.

Modelling conventions:
* scalar concentrations are exact rationals (`ℚ`) standing for the f32 values;
* device buffers are total functions from (i32) indices; a `+=` store is a
  pointwise functional update (`bufAdd`);
* the parallel dispatch is a fold of the lane function over every dispatched
  global invocation id, which is the additive, order-independent semantics
  the shader relies on (all stores are additions onto a pre-zeroed buffer);
* reads that fall outside the physical buffer return the function's value
  there (occupancy `-1`, concentration as given); none of the settled facts
  below depends on the value of such an out-of-buffer read.
-/

/-- Grid dimensions, the `dimensions : vec3<u32>` uniform. -/
structure Dims where
  x : Nat
  y : Nat
  z : Nat

/-- Shader function `xyz_to_index`: `i32(x + y * dimensions.x + z * dimensions.x * dimensions.y)`. -/
def xyz_to_index (dims : Dims) (x y z : Nat) : Int :=
  ((x + y * dims.x + z * dims.x * dims.y : Nat) : Int)

/-- Neighbor index along -x: `select(xyz_to_index(x - 1u, y, z), -1, x == 0u)`. -/
def x_prev_idx (dims : Dims) (x y z : Nat) : Int :=
  if x = 0 then -1 else xyz_to_index dims (x - 1) y z

/-- Neighbor index along +x: `select(xyz_to_index(x + 1u, y, z), -1, x + 1u == dimensions.x)`. -/
def x_next_idx (dims : Dims) (x y z : Nat) : Int :=
  if x + 1 = dims.x then -1 else xyz_to_index dims (x + 1) y z

/-- Neighbor index along -y. -/
def y_prev_idx (dims : Dims) (x y z : Nat) : Int :=
  if y = 0 then -1 else xyz_to_index dims x (y - 1) z

/-- Neighbor index along +y. -/
def y_next_idx (dims : Dims) (x y z : Nat) : Int :=
  if y + 1 = dims.y then -1 else xyz_to_index dims x (y + 1) z

/-- Neighbor index along -z. -/
def z_prev_idx (dims : Dims) (x y z : Nat) : Int :=
  if z = 0 then -1 else xyz_to_index dims x y (z - 1)

/-- Neighbor index along +z. -/
def z_next_idx (dims : Dims) (x y z : Nat) : Int :=
  if z + 1 = dims.z then -1 else xyz_to_index dims x y (z + 1)

/-- The six face-neighbor indices of lane `(x,y,z)`, in shader order. -/
def neighborIdxs (dims : Dims) (x y z : Nat) : List Int :=
  [x_prev_idx dims x y z, x_next_idx dims x y z,
   y_prev_idx dims x y z, y_next_idx dims x y z,
   z_prev_idx dims x y z, z_next_idx dims x y z]

/-- Shader bindings that stay fixed during a pass: dimensions, the combined
diffusion constant, the time step, the occupancy map `cell_indices`
(binding 5) and the flattened cell data `cells` (binding 6). -/
structure ShaderEnv where
  dims : Dims
  combined_constant : ℚ
  delta_time : ℚ
  cell_indices : Int → Int
  cells : Int → ℚ

/-- Accumulating store `buf[j] += v` on a buffer modelled as a function. -/
def bufAdd (buf : Int → ℚ) (j : Int) (v : ℚ) : Int → ℚ :=
  fun i => if i = j then buf i + v else buf i

/-- Case A helper: `if (nIdx != -1 && cell_indices[nIdx] != -1) { num_open -= 1; }`. -/
def decOpen (env : ShaderEnv) (nIdx : Int) (num_open : Int) : Int :=
  if nIdx ≠ -1 ∧ env.cell_indices nIdx ≠ -1 then num_open - 1 else num_open

/-- Case A open-direction counter: `num_open` starts at `6` and is decremented
once per direction whose neighbor is in-bounds and occupied, in shader order. -/
def numOpenA (env : ShaderEnv) (x y z : Nat) : Int :=
  decOpen env (z_next_idx env.dims x y z)
    (decOpen env (z_prev_idx env.dims x y z)
      (decOpen env (y_next_idx env.dims x y z)
        (decOpen env (y_prev_idx env.dims x y z)
          (decOpen env (x_next_idx env.dims x y z)
            (decOpen env (x_prev_idx env.dims x y z) 6)))))

/-- Case A helper: `if (nIdx != -1 && cell_indices[nIdx] == -1) { output_concentration[nIdx] += v; }`. -/
def addProduction (env : ShaderEnv) (nIdx : Int) (v : ℚ) (outC : Int → ℚ) : Int → ℚ :=
  if nIdx ≠ -1 ∧ env.cell_indices nIdx = -1 then bufAdd outC nIdx v else outC

/-- Case A per-neighbor production share:
`cells[this_position_cell_idx * 4 + 3] * delta_time / f32(num_open)`. -/
def productionShare (env : ShaderEnv) (x y z : Nat) : ℚ :=
  env.cells (env.cell_indices (xyz_to_index env.dims x y z) * 4 + 3) * env.delta_time /
    ((numOpenA env x y z : Int) : ℚ)

/-- Case B helper, one direction of the open-neighbor scan: out-of-bounds
(`nIdx == -1`) counts as open with no contribution; in-bounds empty adds the
neighbor's INPUT concentration and counts as open; in-bounds occupied is
skipped entirely. -/
def openAccum (env : ShaderEnv) (inp : Int → ℚ) (nIdx : Int) (acc : ℚ × Int) : ℚ × Int :=
  if nIdx = -1 then (acc.1, acc.2 + 1)
  else if env.cell_indices nIdx = -1 then (acc.1 + inp nIdx, acc.2 + 1)
  else acc

/-- Case B open-neighbor scan `(sum_open, num_open)`: the six directions
processed in shader order, starting from `(0.0, 0)`. -/
def openScan (env : ShaderEnv) (inp : Int → ℚ) (x y z : Nat) : ℚ × Int :=
  openAccum env inp (z_next_idx env.dims x y z)
    (openAccum env inp (z_prev_idx env.dims x y z)
      (openAccum env inp (y_next_idx env.dims x y z)
        (openAccum env inp (y_prev_idx env.dims x y z)
          (openAccum env inp (x_next_idx env.dims x y z)
            (openAccum env inp (x_prev_idx env.dims x y z) ((0 : ℚ), (0 : Int)))))))

/-- Shader entry point `main` for one lane with global id `(x,y,z)`:
Case A (occupied voxel) distributes the production share into in-bounds
empty neighbors; Case B (empty voxel) accumulates the explicit diffusion
update onto the lane's own output slot. The lane performs no bounds check
on its global id. Returns the updated output buffer. -/
def shaderMain (env : ShaderEnv) (input_concentration output_concentration : Int → ℚ)
    (x y z : Nat) : Int → ℚ :=
  let idx := xyz_to_index env.dims x y z
  if env.cell_indices idx ≠ -1 then
    let cell_production_per_open := productionShare env x y z
    addProduction env (z_next_idx env.dims x y z) cell_production_per_open
      (addProduction env (z_prev_idx env.dims x y z) cell_production_per_open
        (addProduction env (y_next_idx env.dims x y z) cell_production_per_open
          (addProduction env (y_prev_idx env.dims x y z) cell_production_per_open
            (addProduction env (x_next_idx env.dims x y z) cell_production_per_open
              (addProduction env (x_prev_idx env.dims x y z) cell_production_per_open
                output_concentration)))))
  else
    let acc := openScan env input_concentration x y z
    let diffusion_term :=
      env.combined_constant * (acc.1 - (acc.2 : ℚ) * input_concentration idx)
    bufAdd output_concentration idx (input_concentration idx + diffusion_term)

/-- Workgroup size declared by `@workgroup_size(8, 8, 8)`. -/
def workgroupSize : Nat := 8

/-- Number of lanes dispatched along one axis:
`Math.ceil(dim / workgroupSize)` workgroups of `workgroupSize` lanes each. -/
def dispatchDim (d : Nat) : Nat :=
  workgroupSize * ((d + workgroupSize - 1) / workgroupSize)

/-- Every global invocation id produced by
`dispatchWorkgroups(ceil(x/8), ceil(y/8), ceil(z/8))` with 8x8x8 workgroups. -/
def laneList (dims : Dims) : List (Nat × Nat × Nat) :=
  (List.range (dispatchDim dims.x)).flatMap fun x =>
    (List.range (dispatchDim dims.y)).flatMap fun y =>
      (List.range (dispatchDim dims.z)).map fun z => (x, y, z)

/-- One full compute pass: run the lane function for every dispatched global
id, accumulating into the output buffer. -/
def dispatch (env : ShaderEnv) (inp outC : Int → ℚ) : Int → ℚ :=
  (laneList env.dims).foldl
    (fun o lane => shaderMain env inp o lane.1 lane.2.1 lane.2.2) outC

/-- Engine state: the fixed shader environment plus the INPUT buffer
(`concentrationBuffer`) and OUTPUT buffer (`concentrationOutputBuffer`). -/
structure SimState where
  env : ShaderEnv
  input : Int → ℚ
  output : Int → ℚ

/-- The single-step field update: dispatch the shader over the whole grid,
reading `inp`, accumulating onto a zero-cleared output buffer. -/
def stepField (env : ShaderEnv) (inp : Int → ℚ) : Int → ℚ :=
  dispatch env inp (fun _ => 0)

/-- Method `DiffusionSim.process`: clear OUTPUT (`clearBuffer`), dispatch the
compute pass reading INPUT, then `copyBufferToBuffer` OUTPUT into INPUT. -/
def process (s : SimState) : SimState :=
  let cleared : Int → ℚ := fun _ => 0
  let newOutput := dispatch s.env s.input cleared
  { s with output := newOutput, input := newOutput }

/-- Method `DiffusionSim.readResults`, data path: the snapshot returned to the
caller is a copy of the OUTPUT buffer (`concentrationOutputBuffer` is copied
into the staging buffer and read back). -/
def readSnapshot (s : SimState) : Int → ℚ :=
  s.output

/-- A biological cell: grid position and production rate (`cells.ts`). -/
structure Cell where
  position : Int × Int × Int
  productionRate : ℚ

/-- Linear voxel index of a cell position, as computed in `updateCells`:
`cellPosition.x + cellPosition.y * dims.x + cellPosition.z * dims.x * dims.y`. -/
def cellLinearIndex (dims : Dims) (p : Int × Int × Int) : Int :=
  p.1 + p.2.1 * dims.x + p.2.2 * dims.x * dims.y

/-- Occupancy map built by `updateCells`: `cellIndexData.fill(-1)`, then stamp
each cell's registry index at its linear position, in registry order. -/
def buildCellIndices (dims : Dims) (cells : List Cell) : Int → Int :=
  cells.enum.foldl
    (fun f ic => fun j => if j = cellLinearIndex dims ic.2.position then (ic.1 : Int) else f j)
    (fun _ => -1)

/-- Flattened cell data built by `DiffusionSim.flattenCells`: four floats per
cell, `x, y, z, productionRate`, at offsets `4*i .. 4*i+3`. -/
def flattenCells (cells : List Cell) : Int → ℚ :=
  cells.enum.foldl
    (fun f ic => fun j =>
      if j = (ic.1 : Int) * 4 then ((ic.2.position.1 : ℚ))
      else if j = (ic.1 : Int) * 4 + 1 then ((ic.2.position.2.1 : ℚ))
      else if j = (ic.1 : Int) * 4 + 2 then ((ic.2.position.2.2 : ℚ))
      else if j = (ic.1 : Int) * 4 + 3 then ic.2.productionRate
      else f j)
    (fun _ => 0)

/-- Combined constant written by `setCombinedConstant`:
`diffusionConstant * (deltaTime / (deltaSpace * deltaSpace))` with
`deltaSpace = 1.0`. -/
def setCombinedConstant (diffusionConstant deltaTime : ℚ) : ℚ :=
  let deltaSpace : ℚ := 1
  diffusionConstant * (deltaTime / (deltaSpace * deltaSpace))

/-- Engine state immediately after construction: `device.queue.writeBuffer`
puts the initial concentration data in the INPUT buffer only; the OUTPUT
buffer is created and never written, hence holds its zero-initialized
contents. -/
def createState (env : ShaderEnv) (concentrationData : Int → ℚ) : SimState :=
  { env := env, input := concentrationData, output := fun _ => 0 }

/-- Construction failures that `DiffusionSim.create` can raise. -/
inductive CreateError where
  | webGPUNotSupported
  | noAdapterFound

/-- Static factory `DiffusionSim.create`: throws when `navigator.gpu` is
missing or no adapter is found; otherwise builds the buffers (initial data
into INPUT only), runs `updateCells` and `setCombinedConstant`, and returns
the engine. It performs no validation of `dims`. -/
def create (gpuAvailable adapterFound : Bool) (dims : Dims)
    (concentrationData : Int → ℚ) (diffusionConstant deltaTime : ℚ)
    (cells : List Cell) : Except CreateError SimState :=
  if gpuAvailable = false then Except.error CreateError.webGPUNotSupported
  else if adapterFound = false then Except.error CreateError.noAdapterFound
  else
    Except.ok (createState
      { dims := dims
        combined_constant := setCombinedConstant diffusionConstant deltaTime
        delta_time := deltaTime
        cell_indices := buildCellIndices dims cells
        cells := flattenCells cells }
      concentrationData)

/-- Whether construction produced an engine. -/
def createSucceeded (r : Except CreateError SimState) : Bool :=
  match r with
  | Except.ok _ => true
  | Except.error _ => false

/-- Readback pipeline state for `readResults`: the nullable pending-read
handle `readPromise` (holding the id of the in-flight read), the number of
staging-buffer copies submitted so far, and a supply of fresh read ids. -/
structure ReadPipeline where
  readPromise : Option Nat
  copiesSubmitted : Nat
  nextReadId : Nat

/-- Method `DiffusionSim.readResults`, control path: if `readPromise` is
non-null the caller gets that same pending read and no new staging copy is
submitted; otherwise a new read is started (one staging copy submitted) and
stored in `readPromise`. Returns the read handed to the caller and the new
pipeline state. -/
def readResults (s : ReadPipeline) : Nat × ReadPipeline :=
  match s.readPromise with
  | some p => (p, s)
  | none =>
      (s.nextReadId,
        { readPromise := some s.nextReadId,
          copiesSubmitted := s.copiesSubmitted + 1,
          nextReadId := s.nextReadId + 1 })

/-- Completion of the pending read: after the mapped data has been captured,
`this.readPromise = null` clears the handle (exactly once per read). -/
def finishRead (s : ReadPipeline) : ReadPipeline :=
  { s with readPromise := none }

/-- Specification-side per-direction contribution to Case B's open sum:
out-of-bounds contributes `0`; in-bounds empty contributes the neighbor's
INPUT concentration; in-bounds occupied contributes nothing. -/
def openContribution (env : ShaderEnv) (inp : Int → ℚ) (nIdx : Int) : ℚ :=
  if nIdx = -1 then 0
  else if env.cell_indices nIdx = -1 then inp nIdx
  else 0

/-- Specification-side per-direction increment of Case B's `num_open`:
out-of-bounds and in-bounds-empty directions count `1`; in-bounds occupied
directions count `0`. -/
def openCount1 (env : ShaderEnv) (nIdx : Int) : Int :=
  if nIdx = -1 then 1
  else if env.cell_indices nIdx = -1 then 1
  else 0

/-- Specification-side Case B open sum over the six directions, in shader
order. -/
def sumOpenB (env : ShaderEnv) (inp : Int → ℚ) (x y z : Nat) : ℚ :=
  openContribution env inp (x_prev_idx env.dims x y z) +
    openContribution env inp (x_next_idx env.dims x y z) +
    openContribution env inp (y_prev_idx env.dims x y z) +
    openContribution env inp (y_next_idx env.dims x y z) +
    openContribution env inp (z_prev_idx env.dims x y z) +
    openContribution env inp (z_next_idx env.dims x y z)

/-- Specification-side Case B open count over the six directions. -/
def numOpenB (env : ShaderEnv) (x y z : Nat) : Int :=
  openCount1 env (x_prev_idx env.dims x y z) +
    openCount1 env (x_next_idx env.dims x y z) +
    openCount1 env (y_prev_idx env.dims x y z) +
    openCount1 env (y_next_idx env.dims x y z) +
    openCount1 env (z_prev_idx env.dims x y z) +
    openCount1 env (z_next_idx env.dims x y z)

/-- Indicator of a direction that decrements Case A's `num_open`: the
neighbor is in-bounds (index not `-1`) and occupied. Out-of-bounds
directions are NOT counted. -/
def occupiedDec (env : ShaderEnv) (nIdx : Int) : Int :=
  if nIdx ≠ -1 ∧ env.cell_indices nIdx ≠ -1 then 1 else 0

/-- Number of in-bounds occupied face neighbors of lane `(x,y,z)`. -/
def occupiedNbrCount (env : ShaderEnv) (x y z : Nat) : Int :=
  occupiedDec env (x_prev_idx env.dims x y z) +
    occupiedDec env (x_next_idx env.dims x y z) +
    occupiedDec env (y_prev_idx env.dims x y z) +
    occupiedDec env (y_next_idx env.dims x y z) +
    occupiedDec env (z_prev_idx env.dims x y z) +
    occupiedDec env (z_next_idx env.dims x y z)

/-- The all-zero concentration field. -/
def zeroField : Int → ℚ :=
  fun _ => 0

/-- The 4x4x4 grid of the end-to-end scenario. -/
def dims4 : Dims :=
  ⟨4, 4, 4⟩

/-- The scenario cell list: one cell at `(1,1,1)` with production rate 6. -/
def demoCells : List Cell :=
  [⟨(1, 1, 1), 6⟩]

/-- Shader environment of the end-to-end scenario: 4x4x4 grid, one cell at
`(1,1,1)` with production rate 6, `deltaTime = 1`, diffusion constant 1. -/
def demoEnv : ShaderEnv :=
  { dims := dims4
    combined_constant := setCombinedConstant 1 1
    delta_time := 1
    cell_indices := buildCellIndices dims4 demoCells
    cells := flattenCells demoCells }

/-- Engine state of the end-to-end scenario, with an all-zero initial field. -/
def demoSim : SimState :=
  createState demoEnv zeroField

/-- Shader environment with a 4x4x4 grid, no cells, and combined constant 0
(diffusion constant 0, `deltaTime = 1`). -/
def freeEnv : ShaderEnv :=
  { dims := dims4
    combined_constant := setCombinedConstant 0 1
    delta_time := 1
    cell_indices := buildCellIndices dims4 []
    cells := flattenCells [] }

/-- Concentration field holding 1.0 at voxel `(0,1,0)` (linear index 4) and
0.0 elsewhere. -/
def freeInp : Int → ℚ :=
  fun i => if i = 4 then 1 else 0

/-- Engine state for the out-of-range-lane experiment. -/
def freeSim : SimState :=
  createState freeEnv freeInp

/-- A nonzero initial concentration field used to exercise construction. -/
def smallData : Int → ℚ :=
  fun i => if i = 0 then 5 else 0

/-- Engine state produced by constructing on a 2x2x2 grid with no cells and
the nonzero initial field `smallData`. -/
def smallSim : SimState :=
  createState
    { dims := ⟨2, 2, 2⟩
      combined_constant := setCombinedConstant 1 1
      delta_time := 1
      cell_indices := buildCellIndices ⟨2, 2, 2⟩ []
      cells := flattenCells [] }
    smallData

/-- A readback pipeline state with a read already pending. -/
def demoPipe : ReadPipeline :=
  ⟨some 0, 1, 1⟩

/-! Helper lemmas about the buffer operations and the per-lane shader. -/

lemma bufAdd_apply_self (buf : Int → ℚ) (j : Int) (v : ℚ) :
    bufAdd buf j v j = buf j + v := by
  simp [bufAdd]

lemma bufAdd_apply_ne (buf : Int → ℚ) (j : Int) (v : ℚ) (i : Int) (h : i ≠ j) :
    bufAdd buf j v i = buf i := by
  simp [bufAdd, h]

lemma addProduction_apply_ne (env : ShaderEnv) (nIdx : Int) (v : ℚ) (o : Int → ℚ) (j : Int)
    (h : ¬(j = nIdx ∧ nIdx ≠ -1 ∧ env.cell_indices nIdx = -1)) :
    addProduction env nIdx v o j = o j := by
  unfold addProduction
  split_ifs with hc
  · exact bufAdd_apply_ne _ _ _ _ (fun hj => h ⟨hj, hc⟩)
  · rfl

lemma addProduction_apply_occupied (env : ShaderEnv) (j : Int)
    (hj : env.cell_indices j ≠ -1) (nIdx : Int) (v : ℚ) (o : Int → ℚ) :
    addProduction env nIdx v o j = o j := by
  refine addProduction_apply_ne env nIdx v o j ?_
  rintro ⟨rfl, _, h2⟩
  exact hj h2

lemma addProduction_skip (env : ShaderEnv) (nIdx : Int)
    (hocc : env.cell_indices nIdx ≠ -1) (v : ℚ) (o : Int → ℚ) :
    addProduction env nIdx v o = o := by
  unfold addProduction
  exact if_neg (fun hc => hocc hc.2)

lemma openAccum_eq (env : ShaderEnv) (inp : Int → ℚ) (nIdx : Int) (acc : ℚ × Int) :
    openAccum env inp nIdx acc =
      (acc.1 + openContribution env inp nIdx, acc.2 + openCount1 env nIdx) := by
  unfold openAccum openContribution openCount1
  split_ifs <;> simp

lemma openScan_eq (env : ShaderEnv) (inp : Int → ℚ) (x y z : Nat) :
    openScan env inp x y z = (sumOpenB env inp x y z, numOpenB env x y z) := by
  unfold openScan sumOpenB numOpenB
  simp only [openAccum_eq]
  simp [add_assoc]

lemma decOpen_eq (env : ShaderEnv) (nIdx : Int) (k : Int) :
    decOpen env nIdx k = k - occupiedDec env nIdx := by
  unfold decOpen occupiedDec
  split_ifs <;> simp

lemma numOpenA_eq (env : ShaderEnv) (x y z : Nat) :
    numOpenA env x y z = 6 - occupiedNbrCount env x y z := by
  unfold numOpenA occupiedNbrCount
  simp only [decOpen_eq]
  ring

lemma occupiedDec_nonneg (env : ShaderEnv) (nIdx : Int) : 0 ≤ occupiedDec env nIdx := by
  unfold occupiedDec
  split_ifs <;> omega

lemma occupiedDec_le_one (env : ShaderEnv) (nIdx : Int) : occupiedDec env nIdx ≤ 1 := by
  unfold occupiedDec
  split_ifs <;> omega

lemma occupiedDec_eq_zero_of_empty (env : ShaderEnv) (nIdx : Int)
    (h : env.cell_indices nIdx = -1) : occupiedDec env nIdx = 0 := by
  unfold occupiedDec
  exact if_neg (fun hc => hc.2 h)

lemma occupiedDec_eq_one_elim (env : ShaderEnv) (nIdx : Int)
    (h : occupiedDec env nIdx = 1) : nIdx ≠ -1 ∧ env.cell_indices nIdx ≠ -1 := by
  by_contra hc
  unfold occupiedDec at h
  rw [if_neg hc] at h
  exact absurd h (by omega)

lemma shaderMain_occupied (env : ShaderEnv) (inp outC : Int → ℚ) (x y z : Nat)
    (hocc : env.cell_indices (xyz_to_index env.dims x y z) ≠ -1) :
    shaderMain env inp outC x y z =
      addProduction env (z_next_idx env.dims x y z) (productionShare env x y z)
        (addProduction env (z_prev_idx env.dims x y z) (productionShare env x y z)
          (addProduction env (y_next_idx env.dims x y z) (productionShare env x y z)
            (addProduction env (y_prev_idx env.dims x y z) (productionShare env x y z)
              (addProduction env (x_next_idx env.dims x y z) (productionShare env x y z)
                (addProduction env (x_prev_idx env.dims x y z) (productionShare env x y z)
                  outC))))) := by
  simp only [shaderMain]
  rw [if_pos hocc]

lemma shaderMain_empty (env : ShaderEnv) (inp outC : Int → ℚ) (x y z : Nat)
    (hocc : env.cell_indices (xyz_to_index env.dims x y z) = -1) :
    shaderMain env inp outC x y z =
      bufAdd outC (xyz_to_index env.dims x y z)
        (inp (xyz_to_index env.dims x y z) +
          env.combined_constant *
            ((openScan env inp x y z).1 -
              ((openScan env inp x y z).2 : ℚ) * inp (xyz_to_index env.dims x y z))) := by
  simp only [shaderMain]
  rw [if_neg (by simp [hocc])]

lemma shaderMain_apply_occupied_slot (env : ShaderEnv) (inp outC : Int → ℚ)
    (x y z : Nat) (j : Int) (hj : env.cell_indices j ≠ -1) :
    shaderMain env inp outC x y z j = outC j := by
  by_cases hocc : env.cell_indices (xyz_to_index env.dims x y z) = -1
  · rw [shaderMain_empty env inp outC x y z hocc]
    exact bufAdd_apply_ne _ _ _ _ (fun h => hj (by rw [h]; exact hocc))
  · rw [shaderMain_occupied env inp outC x y z hocc]
    simp only [addProduction_apply_occupied env j hj]

lemma foldl_shaderMain_apply_occupied (env : ShaderEnv) (inp : Int → ℚ) (j : Int)
    (hj : env.cell_indices j ≠ -1) :
    ∀ (ls : List (Nat × Nat × Nat)) (o : Int → ℚ),
      (ls.foldl (fun o lane => shaderMain env inp o lane.1 lane.2.1 lane.2.2) o) j = o j := by
  intro ls
  induction ls with
  | nil => intro o; rfl
  | cons a as ih =>
      intro o
      simp only [List.foldl_cons]
      rw [ih (shaderMain env inp o a.1 a.2.1 a.2.2)]
      exact shaderMain_apply_occupied_slot env inp o a.1 a.2.1 a.2.2 j hj

lemma process_eq (s : SimState) :
    process s =
      { env := s.env, input := stepField s.env s.input, output := stepField s.env s.input } :=
  rfl

/-! Claim theorems. -/

/-- C2: for every voxel not occupied by a cell, one per-voxel update (Case B
of the shader) adds onto that voxel's output slot exactly
`input[idx] + combinedConstant * (sumOfOpenNeighborValues - numOpen * input[idx])`,
where each of the six directions contributes per `openContribution` /
`openCount1`: out-of-bounds gives 0 to the sum but counts open; in-bounds
empty gives its INPUT concentration and counts open; in-bounds occupied
gives nothing and does not count. -/
theorem C2_empty_voxel_update (env : ShaderEnv) (inp outC : Int → ℚ) (x y z : Nat)
    (hx : x < env.dims.x) (hy : y < env.dims.y) (hz : z < env.dims.z)
    (hocc : env.cell_indices (xyz_to_index env.dims x y z) = -1) :
    shaderMain env inp outC x y z =
      bufAdd outC (xyz_to_index env.dims x y z)
        (inp (xyz_to_index env.dims x y z) +
          env.combined_constant *
            (sumOpenB env inp x y z -
              (numOpenB env x y z : ℚ) * inp (xyz_to_index env.dims x y z))) := by
  rw [shaderMain_empty env inp outC x y z hocc, openScan_eq]

/-- Witness for C2 at the empty voxel `(1,1,1)` of the cell-free 4x4x4
environment. -/
theorem C2_empty_voxel_update_witness :
    (1 < freeEnv.dims.x ∧ 1 < freeEnv.dims.y ∧ 1 < freeEnv.dims.z ∧
      freeEnv.cell_indices (xyz_to_index freeEnv.dims 1 1 1) = -1) ∧
    shaderMain freeEnv freeInp zeroField 1 1 1 =
      bufAdd zeroField (xyz_to_index freeEnv.dims 1 1 1)
        (freeInp (xyz_to_index freeEnv.dims 1 1 1) +
          freeEnv.combined_constant *
            (sumOpenB freeEnv freeInp 1 1 1 -
              (numOpenB freeEnv 1 1 1 : ℚ) * freeInp (xyz_to_index freeEnv.dims 1 1 1))) :=
  ⟨⟨by decide, by decide, by decide, by decide⟩,
    C2_empty_voxel_update freeEnv freeInp zeroField 1 1 1 (by decide) (by decide) (by decide)
      (by decide)⟩

/-- C3: for every voxel occupied by a cell, the divisor `num_open` used for
the production share starts at 6 and is decremented exactly once per
in-bounds occupied face neighbor (`occupiedNbrCount`); out-of-bounds
neighbors are not decremented; and the update writes only into face-neighbor
slots that are in-bounds and empty. -/
theorem C3_open_count_accounting (env : ShaderEnv) (inp outC : Int → ℚ) (x y z : Nat)
    (hx : x < env.dims.x) (hy : y < env.dims.y) (hz : z < env.dims.z)
    (hocc : env.cell_indices (xyz_to_index env.dims x y z) ≠ -1) :
    numOpenA env x y z = 6 - occupiedNbrCount env x y z ∧
    ∀ j : Int, shaderMain env inp outC x y z j ≠ outC j →
      j ∈ neighborIdxs env.dims x y z ∧ j ≠ -1 ∧ env.cell_indices j = -1 := by
  refine ⟨numOpenA_eq env x y z, ?_⟩
  intro j hj
  by_contra hq
  apply hj
  rw [shaderMain_occupied env inp outC x y z hocc]
  have hd : ∀ d : Int, d ∈ neighborIdxs env.dims x y z →
      ∀ o : Int → ℚ, addProduction env d (productionShare env x y z) o j = o j := by
    intro d hdm o
    refine addProduction_apply_ne env d _ o j ?_
    rintro ⟨rfl, h2, h3⟩
    exact hq ⟨hdm, h2, h3⟩
  rw [hd _ (by simp [neighborIdxs]) _, hd _ (by simp [neighborIdxs]) _,
    hd _ (by simp [neighborIdxs]) _, hd _ (by simp [neighborIdxs]) _,
    hd _ (by simp [neighborIdxs]) _, hd _ (by simp [neighborIdxs]) _]

/-- Witness for C3 at the occupied voxel `(1,1,1)` of the scenario
environment. -/
theorem C3_open_count_accounting_witness :
    (1 < demoEnv.dims.x ∧ 1 < demoEnv.dims.y ∧ 1 < demoEnv.dims.z ∧
      demoEnv.cell_indices (xyz_to_index demoEnv.dims 1 1 1) ≠ -1) ∧
    (numOpenA demoEnv 1 1 1 = 6 - occupiedNbrCount demoEnv 1 1 1 ∧
      ∀ j : Int, shaderMain demoEnv zeroField zeroField 1 1 1 j ≠ zeroField j →
        j ∈ neighborIdxs demoEnv.dims 1 1 1 ∧ j ≠ -1 ∧ demoEnv.cell_indices j = -1) :=
  ⟨⟨by decide, by decide, by decide, by decide⟩,
    C3_open_count_accounting demoEnv zeroField zeroField 1 1 1 (by decide) (by decide)
      (by decide) (by decide)⟩

/-- C9: in Case A the division is harmless for every value actually written:
if the occupied voxel has at least one in-bounds empty neighbor (the only
kind of slot production is written to), the divisor `num_open` is at least 1;
and when `num_open = 0` (all six neighbors in-bounds and occupied) the lane
writes nothing at all, so the divided value is discarded. -/
theorem C9_division_guard (env : ShaderEnv) (inp outC : Int → ℚ) (x y z : Nat)
    (hocc : env.cell_indices (xyz_to_index env.dims x y z) ≠ -1) :
    ((∃ n ∈ neighborIdxs env.dims x y z, n ≠ -1 ∧ env.cell_indices n = -1) →
      1 ≤ numOpenA env x y z) ∧
    (numOpenA env x y z = 0 → shaderMain env inp outC x y z = outC) := by
  have b1 := occupiedDec_le_one env (x_prev_idx env.dims x y z)
  have b2 := occupiedDec_le_one env (x_next_idx env.dims x y z)
  have b3 := occupiedDec_le_one env (y_prev_idx env.dims x y z)
  have b4 := occupiedDec_le_one env (y_next_idx env.dims x y z)
  have b5 := occupiedDec_le_one env (z_prev_idx env.dims x y z)
  have b6 := occupiedDec_le_one env (z_next_idx env.dims x y z)
  have n1 := occupiedDec_nonneg env (x_prev_idx env.dims x y z)
  have n2 := occupiedDec_nonneg env (x_next_idx env.dims x y z)
  have n3 := occupiedDec_nonneg env (y_prev_idx env.dims x y z)
  have n4 := occupiedDec_nonneg env (y_next_idx env.dims x y z)
  have n5 := occupiedDec_nonneg env (z_prev_idx env.dims x y z)
  have n6 := occupiedDec_nonneg env (z_next_idx env.dims x y z)
  constructor
  · rintro ⟨n, hmem, hn1, hn2⟩
    have h0 := occupiedDec_eq_zero_of_empty env n hn2
    rw [numOpenA_eq]
    unfold occupiedNbrCount
    simp only [neighborIdxs, List.mem_cons, List.not_mem_nil, or_false] at hmem
    rcases hmem with rfl | rfl | rfl | rfl | rfl | rfl <;> omega
  · intro h0
    have hsum : occupiedNbrCount env x y z = 6 := by
      rw [numOpenA_eq] at h0
      omega
    unfold occupiedNbrCount at hsum
    have e1 : occupiedDec env (x_prev_idx env.dims x y z) = 1 := by omega
    have e2 : occupiedDec env (x_next_idx env.dims x y z) = 1 := by omega
    have e3 : occupiedDec env (y_prev_idx env.dims x y z) = 1 := by omega
    have e4 : occupiedDec env (y_next_idx env.dims x y z) = 1 := by omega
    have e5 : occupiedDec env (z_prev_idx env.dims x y z) = 1 := by omega
    have e6 : occupiedDec env (z_next_idx env.dims x y z) = 1 := by omega
    rw [shaderMain_occupied env inp outC x y z hocc,
      addProduction_skip env _ (occupiedDec_eq_one_elim env _ e6).2,
      addProduction_skip env _ (occupiedDec_eq_one_elim env _ e5).2,
      addProduction_skip env _ (occupiedDec_eq_one_elim env _ e4).2,
      addProduction_skip env _ (occupiedDec_eq_one_elim env _ e3).2,
      addProduction_skip env _ (occupiedDec_eq_one_elim env _ e2).2,
      addProduction_skip env _ (occupiedDec_eq_one_elim env _ e1).2]

/-- Witness for C9 at the occupied voxel `(1,1,1)` of the scenario
environment. -/
theorem C9_division_guard_witness :
    demoEnv.cell_indices (xyz_to_index demoEnv.dims 1 1 1) ≠ -1 ∧
    (((∃ n ∈ neighborIdxs demoEnv.dims 1 1 1, n ≠ -1 ∧ demoEnv.cell_indices n = -1) →
        1 ≤ numOpenA demoEnv 1 1 1) ∧
      (numOpenA demoEnv 1 1 1 = 0 → shaderMain demoEnv zeroField zeroField 1 1 1 = zeroField)) :=
  ⟨by decide, C9_division_guard demoEnv zeroField zeroField 1 1 1 (by decide)⟩

/-- C6: after any `step()`, the output slot of every voxel whose occupancy is
a cell index (not -1) is zero: the dispatch starts from the cleared output
buffer and no lane ever adds into an occupied voxel's slot (Case B only
writes slots whose occupancy is -1, and Case A production only targets
neighbors whose occupancy is -1). -/
theorem C6_occupied_output_zero (s : SimState) (j : Int)
    (hj : s.env.cell_indices j ≠ -1) :
    (process s).output j = 0 := by
  have h : (process s).output = dispatch s.env s.input (fun _ => 0) := rfl
  rw [h]
  unfold dispatch
  rw [foldl_shaderMain_apply_occupied s.env s.input j hj]

/-- Witness for C6 at the occupied voxel `(1,1,1)` (linear index 21) of the
scenario state. -/
theorem C6_occupied_output_zero_witness :
    demoSim.env.cell_indices 21 ≠ -1 ∧ (process demoSim).output 21 = 0 :=
  ⟨by decide, C6_occupied_output_zero demoSim 21 (by decide)⟩

/-- C5: `process` clears OUTPUT, dispatches the per-voxel update reading
INPUT, and copies OUTPUT into INPUT (first conjunct, definitional); hence N
back-to-back `step()` calls leave the INPUT field equal to N sequential
applications of the single-step update rule `stepField`. -/
theorem C5_n_steps_iterate (s : SimState) (n : Nat) :
    process s =
      { env := s.env, input := stepField s.env s.input, output := stepField s.env s.input } ∧
    (process^[n] s).input = (stepField s.env)^[n] s.input := by
  refine ⟨rfl, ?_⟩
  induction n generalizing s with
  | zero => rfl
  | succ k ih =>
      rw [Function.iterate_succ_apply, Function.iterate_succ_apply]
      rw [ih (process s)]
      rfl

/-- C7: a `readResults()` call made while a read is pending returns the SAME
pending result and leaves the pipeline untouched (no second staging copy is
submitted); the handle is cleared exactly once when the read completes,
after which a new call starts a fresh read (submitting one new copy). -/
theorem C7_at_most_one_inflight_read (s : ReadPipeline) (p : Nat)
    (h : s.readPromise = some p) :
    (readResults s).1 = p ∧ (readResults s).2 = s ∧
    (finishRead s).readPromise = none ∧
    (readResults (finishRead s)).2.copiesSubmitted = s.copiesSubmitted + 1 := by
  simp [readResults, finishRead, h]

/-- Witness for C7 on a pipeline with read 0 pending. -/
theorem C7_at_most_one_inflight_read_witness :
    demoPipe.readPromise = some 0 ∧
    ((readResults demoPipe).1 = 0 ∧ (readResults demoPipe).2 = demoPipe ∧
      (finishRead demoPipe).readPromise = none ∧
      (readResults (finishRead demoPipe)).2.copiesSubmitted = demoPipe.copiesSubmitted + 1) :=
  ⟨rfl, C7_at_most_one_inflight_read demoPipe 0 rfl⟩

/-- C8 counterexample: the claim says construction fails whenever a grid
dimension is not positive, but `create` performs no dimension validation:
with a compute device available, construction on a grid with `x = 0`
succeeds. -/
theorem C8_zero_dimension_accepted :
    createSucceeded (create true true ⟨0, 4, 4⟩ zeroField 1 1 []) = true :=
  rfl

/-- C8 amended: construction fails exactly when no compute device is
available (WebGPU unsupported, or no adapter found); grid dimensions are
never validated, so dimensions equal to zero do not cause a construction
failure. -/
theorem C8_create_failure_characterization (gpu adapter : Bool) (dims : Dims)
    (data : Int → ℚ) (diffusionConstant deltaTime : ℚ) (cells : List Cell) :
    createSucceeded (create gpu adapter dims data diffusionConstant deltaTime cells) =
      (gpu && adapter) := by
  cases gpu <;> cases adapter <;> rfl

/-- C10: whatever arguments construction receives, the engine it returns
holds the initial concentration data in the INPUT buffer only, and a
`readResults()` issued before any `step()` snapshots the zero-initialized,
never-written OUTPUT buffer, so every voxel of the snapshot reads 0. -/
theorem C10_readback_before_first_step (gpu adapter : Bool) (dims : Dims)
    (data : Int → ℚ) (diffusionConstant deltaTime : ℚ) (cells : List Cell) (s : SimState)
    (h : create gpu adapter dims data diffusionConstant deltaTime cells = Except.ok s) :
    (∀ j : Int, readSnapshot s j = 0) ∧ s.input = data := by
  unfold create at h
  split_ifs at h
  all_goals first
    | exact Except.noConfusion h
    | (injection h with hs
       subst hs
       exact ⟨fun j => rfl, rfl⟩)

/-- Witness for C10 on a 2x2x2 construction with a nonzero initial field. -/
theorem C10_readback_before_first_step_witness :
    create true true ⟨2, 2, 2⟩ smallData 1 1 [] = Except.ok smallSim ∧
    ((∀ j : Int, readSnapshot smallSim j = 0) ∧ smallSim.input = smallData) :=
  ⟨rfl, C10_readback_before_first_step true true ⟨2, 2, 2⟩ smallData 1 1 [] smallSim rfl⟩

set_option maxRecDepth 100000 in
/-- C1: evaluation of the code on the claim's own scenario (4x4x4 grid, one
cell at `(1,1,1)` with production rate 6, `deltaTime = 1`, diffusion
constant 1, all-zero initial field). The construction path produces
`demoSim`; after one `step()` and one `readResults()` the face neighbors of
`(1,1,1)` do NOT all equal 1.0: the dispatch also runs out-of-range lanes
`(5,0,1)`, `(1,5,0)` and `(5,4,0)`, whose aliased linear index 21 makes them
re-run Case A for the same cell, so neighbor `(0,1,1)` reads 4.0, neighbor
`(1,0,1)` reads 3.0 and neighbor `(1,1,0)` reads 2.0. -/
theorem C1_scenario_corrupted_by_dispatch :
    create true true dims4 zeroField 1 1 demoCells = Except.ok demoSim ∧
    readSnapshot (process demoSim) (xyz_to_index dims4 0 1 1) = 4 ∧
    readSnapshot (process demoSim) (xyz_to_index dims4 1 0 1) = 3 ∧
    readSnapshot (process demoSim) (xyz_to_index dims4 1 1 0) = 2 := by
  refine ⟨rfl, ?_, ?_, ?_⟩ <;> with_unfolding_all decide

set_option maxRecDepth 100000 in
/-- C4: the dispatched invocation with global id `(4,0,0)` lies at/beyond the
4x4x4 grid (4 is not below `dims.x`), yet it does not no-op: its linear index
aliases the in-range voxel `(0,1,0)` (index 4), Case B runs, and it adds to
that voxel's output. With combined constant 0 and input 1.0 at voxel
`(0,1,0)`, the single lane writes 1.0 there, and a full `step()` leaves that
voxel at 2.0 (its own lane's contribution plus the out-of-range lane's)
instead of the 1.0 an identity step should produce. -/
theorem C4_out_of_range_lane_writes :
    (4, 0, 0) ∈ laneList dims4 ∧
    dims4.x ≤ 4 ∧
    xyz_to_index dims4 4 0 0 = xyz_to_index dims4 0 1 0 ∧
    shaderMain freeEnv freeInp zeroField 4 0 0 (xyz_to_index dims4 0 1 0) = 1 ∧
    readSnapshot (process freeSim) (xyz_to_index dims4 0 1 0) = 2 := by
  refine ⟨by decide, by decide, by decide, ?_, ?_⟩ <;> with_unfolding_all decide
